import Mathlib

/-!
Verification development for a screen-driving GUI agent
(perceive → plan → execute control loop).

The definitions below are a shallow embedding of the Python sources:
  core/execution/actions.py     — action vocabulary and (de)serialization
  core/memory/trajectory.py     — step recorder and terminal transitions
  core/config.py                — configuration dataclass and its attributes
  core/planning/planner.py      — ReAct planner (direct decision strategy)
  core/perception/vision_model.py — perception and shared JSON recovery
  core/llm/client.py            — retry decorator and client construction
  core/agent.py                 — the run loop and its cleanup guarantees

Machine-level conventions: Python dicts parsed from model replies are
modelled by the `Json` inductive; Python float quantities (delays,
wait times) are modelled by `Rat`; impure clocks are passed explicitly;
a raised Python exception is an `Except.error` carrying `str(e)`.
-/

namespace GUIAgent

/-! ### Python numbers

`json.loads` produces `int` for integer literals and `float` for literals
with a fraction or exponent.  `PyNum.float` stores the exact decimal value
as `mantissa / 10 ^ exp10`, kept in lowest decimal terms so that equal
float values have equal representations. -/

inductive PyNum where
  | int (n : Int) : PyNum
  | float (mantissa : Int) (exp10 : Nat) : PyNum
deriving DecidableEq, Repr

/-- Normalize a decimal `mantissa / 10 ^ exp10` by cancelling trailing
factors of ten. -/
def normFloat (mantissa : Int) : Nat → PyNum
  | 0 => .float mantissa 0
  | e + 1 =>
    if mantissa % 10 = 0 then normFloat (mantissa / 10) e
    else .float mantissa (e + 1)

/-- A Python float literal with an integral value (`1.0`, `2.0`, ...). -/
def PyNum.wholeFloat (n : Int) : PyNum := .float n 0

/-! ### JSON values and `json.loads`

`Json` models the values `json.loads` can produce.  The parser is
fuel-based so that it is structurally recursive and reduces in the
kernel. -/

inductive Json where
  | null : Json
  | bool (b : Bool) : Json
  | num (q : PyNum) : Json
  | str (s : String) : Json
  | arr (elems : List Json) : Json
  | obj (entries : List (String × Json)) : Json

/-- Whitespace accepted by Python between JSON tokens / in `\s`. -/
def pyIsWs (c : Char) : Bool :=
  c = ' ' || c = '\t' || c = '\n' || c = '\r' || c = '\x0b' || c = '\x0c'

def skipWs (cs : List Char) : List Char := cs.dropWhile pyIsWs

/-- JSON string escape characters (the `\uXXXX` form is not needed by any
input considered here and is treated as unparseable). -/
def escChar (c : Char) : Option Char :=
  if c = '"' then some '"'
  else if c = '\\' then some '\\'
  else if c = '/' then some '/'
  else if c = 'n' then some '\n'
  else if c = 't' then some '\t'
  else if c = 'r' then some '\r'
  else if c = 'b' then some '\x08'
  else if c = 'f' then some '\x0c'
  else none

/-- Parse the remainder of a JSON string literal (opening quote consumed),
returning the decoded characters and the rest of the input. -/
def parseStrChars : List Char → Option (List Char × List Char)
  | [] => none
  | '"' :: rest => some ([], rest)
  | '\\' :: rest =>
    match rest with
    | [] => none
    | e :: rest2 =>
      match escChar e, parseStrChars rest2 with
      | some c, some (s, r) => some (c :: s, r)
      | _, _ => none
  | c :: rest =>
    match parseStrChars rest with
    | some (s, r) => some (c :: s, r)
    | none => none

def digitsToNat (ds : List Char) : Nat :=
  ds.foldl (fun n c => n * 10 + (c.toNat - 48)) 0

/-- Parse a JSON number (optional minus, integer part, optional fraction,
optional exponent).  Integer literals yield `PyNum.int`; literals with a
fraction or exponent yield a normalized `PyNum.float`. -/
def parseNum (cs : List Char) : Option (PyNum × List Char) :=
  let (neg, cs1) :=
    match cs with
    | '-' :: rest => (true, rest)
    | _ => (false, cs)
  let intDigits := cs1.takeWhile Char.isDigit
  let cs2 := cs1.dropWhile Char.isDigit
  if intDigits = [] then none
  else
    let (fracDigits, cs3) :=
      match cs2 with
      | '.' :: rest =>
        (rest.takeWhile Char.isDigit, rest.dropWhile Char.isDigit)
      | _ => ([], cs2)
    if cs2 ≠ [] ∧ cs2.head? = some '.' ∧ fracDigits = [] then none
    else
      let (expOk, hasExp, expNeg, expDigits, cs4) :=
        match cs3 with
        | 'e' :: '-' :: rest => (rest.takeWhile Char.isDigit != [], true, true, rest.takeWhile Char.isDigit, rest.dropWhile Char.isDigit)
        | 'E' :: '-' :: rest => (rest.takeWhile Char.isDigit != [], true, true, rest.takeWhile Char.isDigit, rest.dropWhile Char.isDigit)
        | 'e' :: '+' :: rest => (rest.takeWhile Char.isDigit != [], true, false, rest.takeWhile Char.isDigit, rest.dropWhile Char.isDigit)
        | 'E' :: '+' :: rest => (rest.takeWhile Char.isDigit != [], true, false, rest.takeWhile Char.isDigit, rest.dropWhile Char.isDigit)
        | 'e' :: rest => (rest.takeWhile Char.isDigit != [], true, false, rest.takeWhile Char.isDigit, rest.dropWhile Char.isDigit)
        | 'E' :: rest => (rest.takeWhile Char.isDigit != [], true, false, rest.takeWhile Char.isDigit, rest.dropWhile Char.isDigit)
        | _ => (true, false, false, ([] : List Char), cs3)
      if !expOk then none
      else
        let isFloat := (fracDigits != []) || hasExp
        let mantNat := digitsToNat (intDigits ++ fracDigits)
        let mant : Int := if neg then -(mantNat : Int) else (mantNat : Int)
        if !isFloat then some (.int mant, cs4)
        else
          let expVal := digitsToNat expDigits
          let value : PyNum :=
            if expNeg then normFloat mant (fracDigits.length + expVal)
            else if fracDigits.length ≤ expVal then
              .float (mant * ((10 : Int) ^ (expVal - fracDigits.length))) 0
            else normFloat mant (fracDigits.length - expVal)
          some (value, cs4)

/-- Parse comma-separated array items up to the closing bracket, given a
parser `p` for one value.  Fuel bounds the number of items. -/
def parseArrItems (p : List Char → Option (Json × List Char)) :
    Nat → List Char → Option (List Json × List Char)
  | 0, _ => none
  | fuel + 1, cs =>
    match p cs with
    | none => none
    | some (v, rest) =>
      match skipWs rest with
      | ',' :: r2 =>
        match parseArrItems p fuel r2 with
        | some (vs, r3) => some (v :: vs, r3)
        | none => none
      | ']' :: r2 => some ([v], r2)
      | _ => none

/-- Parse comma-separated object members up to the closing brace. -/
def parseObjItems (p : List Char → Option (Json × List Char)) :
    Nat → List Char → Option (List (String × Json) × List Char)
  | 0, _ => none
  | fuel + 1, cs =>
    match skipWs cs with
    | '"' :: rest =>
      match parseStrChars rest with
      | none => none
      | some (keyChars, r1) =>
        match skipWs r1 with
        | ':' :: r2 =>
          match p r2 with
          | none => none
          | some (v, r3) =>
            match skipWs r3 with
            | ',' :: r4 =>
              match parseObjItems p fuel r4 with
              | some (kvs, r5) => some ((String.mk keyChars, v) :: kvs, r5)
              | none => none
            | '\x7d' :: r4 => some ([(String.mk keyChars, v)], r4)
            | _ => none
        | _ => none
    | _ => none

/-- Parse one JSON value; fuel bounds the nesting depth. -/
def parseVal : Nat → List Char → Option (Json × List Char)
  | 0, _ => none
  | fuel + 1, cs =>
    match skipWs cs with
    | 'n' :: 'u' :: 'l' :: 'l' :: rest => some (.null, rest)
    | 't' :: 'r' :: 'u' :: 'e' :: rest => some (.bool true, rest)
    | 'f' :: 'a' :: 'l' :: 's' :: 'e' :: rest => some (.bool false, rest)
    | '"' :: rest =>
      match parseStrChars rest with
      | some (s, r) => some (.str (String.mk s), r)
      | none => none
    | '\x7b' :: rest =>
      match skipWs rest with
      | '\x7d' :: r2 => some (.obj [], r2)
      | r2 =>
        match parseObjItems (parseVal fuel) (r2.length + 1) r2 with
        | some (kvs, r3) => some (.obj kvs, r3)
        | none => none
    | '[' :: rest =>
      match skipWs rest with
      | ']' :: r2 => some (.arr [], r2)
      | r2 =>
        match parseArrItems (parseVal fuel) (r2.length + 1) r2 with
        | some (vs, r3) => some (.arr vs, r3)
        | none => none
    | rest =>
      match parseNum rest with
      | some (q, r) => some (.num q, r)
      | none => none

/-- `json.loads` on a character list: parse the whole input (ignoring
surrounding whitespace) or fail. -/
def parseJsonChars (cs : List Char) : Option Json :=
  match parseVal (cs.length + 1) cs with
  | some (v, rest) => if skipWs rest = [] then some v else none
  | none => none

/-- `json.loads`: parse the whole string or fail. -/
def parseJson (s : String) : Option Json := parseJsonChars s.data

/-! ### The shared three-stage JSON recovery subroutine

`_parse_json_response` in both `planner.py` and `vision_model.py`:
(1) `json.loads` on the whole reply; (2) the first fenced code block,
via the regex pattern matching a pair of triple-backtick fences with an
optional `json` tag; (3) the first-brace-to-last-brace span (the greedy
dot-all brace regex). -/

/-- Split on a non-empty separator (the behavior of `str.split` /
`String.splitOn` for the fence token); fuel is the input length. -/
def splitOnAux (sep : List Char) (cur : List Char) :
    Nat → List Char → List (List Char)
  | _, [] => [cur.reverse]
  | 0, cs => [cur.reverse ++ cs]
  | fuel + 1, c :: rest =>
    if sep.isPrefixOf (c :: rest) then
      cur.reverse :: splitOnAux sep [] fuel ((c :: rest).drop sep.length)
    else splitOnAux sep (c :: cur) fuel rest

def splitOnChars (sep cs : List Char) : List (List Char) :=
  splitOnAux sep [] (cs.length + 1) cs

/-- Contents of the first fenced block after the regex's `(?:json)?\s*\n?`
prefix handling and the lazy capture's optional trailing-newline
handling. -/
def stripFence (mid : List Char) : List Char :=
  let m1 := if ['j', 's', 'o', 'n'].isPrefixOf mid then mid.drop 4 else mid
  let m2 := m1.dropWhile pyIsWs
  if m2.getLast? = some '\n' then m2.dropLast else m2

/-- Extract the first fenced code block (the regex needs two fences to
match; the lazy capture stops at the second fence). -/
def extractFenced (cs : List Char) : Option (List Char) :=
  match splitOnChars ['`', '`', '`'] cs with
  | _ :: mid :: _ :: _ => some (stripFence mid)
  | _ => none

/-- Extract the greedy dot-all brace span: from the first opening brace to
the last closing brace after it. -/
def extractBraces (cs : List Char) : Option (List Char) :=
  let lastClose : Option Nat :=
    match cs.reverse.findIdx? (· == '\x7d') with
    | none => none
    | some k => some (cs.length - 1 - k)
  match cs.findIdx? (· == '\x7b'), lastClose with
  | some i, some j =>
    if i < j then some ((cs.drop i).take (j - i + 1)) else none
  | _, _ => none

/-- The three recovery stages; `none` means all three failed (each caller
then substitutes its own safe default). -/
def parseJsonStages (response : String) : Option Json :=
  match parseJson response with
  | some v => some v
  | none =>
    let fenced :=
      match extractFenced response.data with
      | some inner => parseJsonChars inner
      | none => none
    match fenced with
    | some v => some v
    | none =>
      match extractBraces response.data with
      | some span => parseJsonChars span
      | none => none

/-- Field lookup in a parsed JSON object (`dict.get`, first binding wins). -/
def jsonGet (entries : List (String × Json)) (key : String) : Option Json :=
  match entries.find? (fun kv => kv.1 == key) with
  | some kv => some kv.2
  | none => none

/-- `dict.get` on a whole `Json` value when it is an object; `none` when the
key is absent. -/
def Json.getKey (j : Json) (key : String) : Option Json :=
  match j with
  | .obj entries => jsonGet entries key
  | _ => none

/-! ### Action model — `core/execution/actions.py`

The `ActionType` enum, the `Action` dataclass, its dict round-trip, the
`ActionSpace` constructors, and `ActionSpace.from_llm_response`.  Python
`int(...)` / `float(...)` / `str(...)` conversions are modelled by
`pyInt` / `pyFloat` / `pyStr`; a raised conversion error is an
`Except.error`. -/

inductive ActionType where
  | CLICK_LEFT
  | CLICK_RIGHT
  | SCROLL_UP
  | SCROLL_DOWN
  | TYPE
  | WAIT
  | STOP
deriving DecidableEq, Repr

/-- The `.value` string of each enum member. -/
def ActionType.value : ActionType → String
  | .CLICK_LEFT => "click_left"
  | .CLICK_RIGHT => "click_right"
  | .SCROLL_UP => "scroll_up"
  | .SCROLL_DOWN => "scroll_down"
  | .TYPE => "type"
  | .WAIT => "wait"
  | .STOP => "stop"

/-- `ActionType(s)`: enum lookup by value, `none` modelling the
`ValueError` raised on an unrecognized value. -/
def ActionType.ofValue (s : String) : Option ActionType :=
  if s = "click_left" then some .CLICK_LEFT
  else if s = "click_right" then some .CLICK_RIGHT
  else if s = "scroll_up" then some .SCROLL_UP
  else if s = "scroll_down" then some .SCROLL_DOWN
  else if s = "type" then some .TYPE
  else if s = "wait" then some .WAIT
  else if s = "stop" then some .STOP
  else none

/-- The `Action` dataclass.  Optional fields default to `None`; `metadata`
defaults to an empty map (string-valued entries suffice for every use in
the repository). -/
structure Action where
  action_type : ActionType
  coordinates : Option (Int × Int)
  text : Option String
  scroll_amount : Option Int
  wait_time : Option PyNum
  thought : Option String
  metadata : List (String × String)
deriving DecidableEq, Repr

/-- The dataclass-generated constructor: it assigns the fields verbatim and
performs no validation (`actions.py` defines no `__post_init__`). -/
def Action.construct (action_type : ActionType) (coordinates : Option (Int × Int))
    (text : Option String) (scroll_amount : Option Int) (wait_time : Option PyNum)
    (thought : Option String) (metadata : List (String × String)) : Action :=
  ⟨action_type, coordinates, text, scroll_amount, wait_time, thought, metadata⟩

/-- Modelled from the spec (§3, §8): a variant's required fields must be
present — `Type` needs `text`, the click variants need a coordinate pair.
(The source has no such check; this predicate exists to compare the spec's
claimed invariant against what the constructor accepts.) -/
def Action.variantValid (a : Action) : Bool :=
  match a.action_type with
  | .TYPE => a.text.isSome
  | .CLICK_LEFT => a.coordinates.isSome
  | .CLICK_RIGHT => a.coordinates.isSome
  | _ => true

/-- The dictionary produced by `Action.to_dict` (all seven keys are always
present). -/
structure ActionDict where
  action_type : String
  coordinates : Option (Int × Int)
  text : Option String
  scroll_amount : Option Int
  wait_time : Option PyNum
  thought : Option String
  metadata : List (String × String)
deriving DecidableEq, Repr

def Action.to_dict (a : Action) : ActionDict :=
  { action_type := a.action_type.value
    coordinates := a.coordinates
    text := a.text
    scroll_amount := a.scroll_amount
    wait_time := a.wait_time
    thought := a.thought
    metadata := a.metadata }

/-- `Action.from_dict`: `ActionType(data["action_type"])` raises on an
unknown value; `tuple(data["coordinates"]) if data.get("coordinates")` is
the identity on an optional pair (a present pair is truthy, `None` is
falsy); the remaining fields are read back verbatim. -/
def Action.from_dict (data : ActionDict) : Except String Action :=
  match ActionType.ofValue data.action_type with
  | none => .error ("ValueError: " ++ data.action_type ++ " is not a valid ActionType")
  | some t =>
    .ok
      { action_type := t
        coordinates := data.coordinates
        text := data.text
        scroll_amount := data.scroll_amount
        wait_time := data.wait_time
        thought := data.thought
        metadata := data.metadata }

/-! `ActionSpace` convenience constructors. -/

def ActionSpace.create_click_left (x y : Int) (thought : Option String) : Action :=
  ⟨.CLICK_LEFT, some (x, y), none, none, none, thought, []⟩

def ActionSpace.create_click_right (x y : Int) (thought : Option String) : Action :=
  ⟨.CLICK_RIGHT, some (x, y), none, none, none, thought, []⟩

def ActionSpace.create_scroll_up (amount : Int) (thought : Option String) : Action :=
  ⟨.SCROLL_UP, none, none, some amount, none, thought, []⟩

def ActionSpace.create_scroll_down (amount : Int) (thought : Option String) : Action :=
  ⟨.SCROLL_DOWN, none, none, some amount, none, thought, []⟩

def ActionSpace.create_type (text : String) (coordinates : Option (Int × Int))
    (thought : Option String) : Action :=
  ⟨.TYPE, coordinates, some text, none, none, thought, []⟩

def ActionSpace.create_wait (seconds : PyNum) (thought : Option String) : Action :=
  ⟨.WAIT, none, none, none, some seconds, thought, []⟩

def ActionSpace.create_stop (thought : Option String) : Action :=
  ⟨.STOP, none, none, none, none, thought, []⟩

/-! Python conversion builtins, for the parameter coercions in
`from_llm_response`. -/

/-- ASCII lowering, as `str.lower` behaves on the action names in use. -/
def pyLower (s : String) : String :=
  String.mk (s.data.map fun c =>
    if 'A' ≤ c ∧ c ≤ 'Z' then Char.ofNat (c.toNat + 32) else c)

/-- Truncating division toward zero, the behavior of `int()` on a float. -/
def intTruncDiv (m : Int) (d : Nat) : Int :=
  if 0 ≤ m then (m.toNat / d : Nat) else -((-m).toNat / d : Nat)

/-- `int(str)`: optional surrounding whitespace, optional sign, digits. -/
def pyIntOfString (s : String) : Except String Int :=
  let core := (s.data.dropWhile pyIsWs).reverse.dropWhile pyIsWs |>.reverse
  let (neg, digits) :=
    match core with
    | '-' :: rest => (true, rest)
    | '+' :: rest => (false, rest)
    | _ => (false, core)
  if digits ≠ [] ∧ digits.all Char.isDigit then
    .ok (if neg then -(digitsToNat digits : Int) else (digitsToNat digits : Int))
  else .error ("ValueError: invalid literal for int() with base 10: " ++ s)

/-- `int(x)` on a parsed JSON parameter value. -/
def pyInt : Json → Except String Int
  | .num (.int n) => .ok n
  | .num (.float m e) => .ok (intTruncDiv m (10 ^ e))
  | .bool b => .ok (if b then 1 else 0)
  | .str s => pyIntOfString s
  | _ => .error "TypeError: int() argument must be a string or a number"

/-- `float(str)`: optional surrounding whitespace, then a decimal numeral
(the exotic forms accepted by Python but never produced here are treated
as unparseable). -/
def pyFloatOfString (s : String) : Except String PyNum
  := let core := (s.data.dropWhile pyIsWs).reverse.dropWhile pyIsWs |>.reverse
  match parseNum core with
  | some (v, []) =>
    match v with
    | .int n => .ok (.float n 0)
    | f => .ok f
  | _ => .error ("ValueError: could not convert string to float: " ++ s)

/-- `float(x)` on a parsed JSON parameter value. -/
def pyFloat : Json → Except String PyNum
  | .num (.int n) => .ok (.float n 0)
  | .num (.float m e) => .ok (.float m e)
  | .bool b => .ok (.float (if b then 1 else 0) 0)
  | .str s => pyFloatOfString s
  | _ => .error "TypeError: float() argument must be a string or a number"

/-- Decimal rendering of a normalized float (`str(2.5)`). -/
def renderFloat (m : Int) (e : Nat) : String :=
  if e = 0 then toString m ++ ".0"
  else
    let sign := if m < 0 then "-" else ""
    let digits := toString m.natAbs
    let padded :=
      if digits.length ≤ e then
        String.mk (List.replicate (e + 1 - digits.length) '0') ++ digits
      else digits
    sign ++ String.mk (padded.data.take (padded.length - e)) ++ "." ++
      String.mk (padded.data.drop (padded.length - e))

/-- Fueled rendering of a JSON value the way `str()` displays the parsed
Python object (only the scalar cases are ever exercised by the
repository's callers; the fuel bounds nesting). -/
def pyStrAux : Nat → Json → String
  | _, .null => "None"
  | _, .bool b => if b then "True" else "False"
  | _, .num (.int n) => toString n
  | _, .num (.float m e) => renderFloat m e
  | _, .str s => s
  | 0, _ => ""
  | fuel + 1, .arr xs =>
    "[" ++ String.intercalate ", " (xs.map (pyStrAux fuel)) ++ "]"
  | fuel + 1, .obj kvs =>
    "\x7b" ++
      String.intercalate ", "
        (kvs.map fun kv => "\x27" ++ kv.1 ++ "\x27: " ++ pyStrAux fuel kv.2) ++
      "\x7d"

def pyStr (j : Json) : String := pyStrAux 100 j

/-- `params.get(key, default)`: raises `AttributeError` when `params` is
not a dict. -/
def paramsGet (params : Json) (key : String) (default : Json) :
    Except String Json :=
  match params with
  | .obj es => .ok ((jsonGet es key).getD default)
  | _ => .error "AttributeError: get"

/-- `key in params` (dict membership; a non-dict here would raise in the
only call site's `params["x"]` anyway). -/
def paramsHas (params : Json) (key : String) : Except String Bool :=
  match params with
  | .obj es => .ok (jsonGet es key).isSome
  | _ => .error "TypeError: argument of type is not a dict"

/-- `response.get("thought")` as stored into `Action.thought`
(`Optional[str]`; absent or `null` becomes `None`). -/
def pyOptStr : Option Json → Option String
  | some (.str s) => some s
  | _ => none

/-- `ActionSpace.from_llm_response`: map the parsed decision to an
`Action` via the fixed name table; an unrecognized name raises
`ValueError("未知动作类型: ...")`, and parameter coercion errors
propagate.  All raised exceptions surface as `Except.error` with the
exception text. -/
def ActionSpace.from_llm_response (response : Json) : Except String Action := do
  let entries ←
    match response with
    | .obj es => Except.ok es
    | _ => Except.error "AttributeError: get"
  let actionVal := (jsonGet entries "action").getD (.str "")
  let action_name ←
    match actionVal with
    | .str s => Except.ok (pyLower s)
    | _ => Except.error "AttributeError: lower"
  let params := (jsonGet entries "parameters").getD (.obj [])
  let thought := pyOptStr (jsonGet entries "thought")
  if action_name = "click_left" then do
    let x ← pyInt (← paramsGet params "x" (.num (.int 0)))
    let y ← pyInt (← paramsGet params "y" (.num (.int 0)))
    return ActionSpace.create_click_left x y thought
  else if action_name = "click_right" then do
    let x ← pyInt (← paramsGet params "x" (.num (.int 0)))
    let y ← pyInt (← paramsGet params "y" (.num (.int 0)))
    return ActionSpace.create_click_right x y thought
  else if action_name = "scroll_up" then do
    let amount ← pyInt (← paramsGet params "amount" (.num (.int 300)))
    return ActionSpace.create_scroll_up amount thought
  else if action_name = "scroll_down" then do
    let amount ← pyInt (← paramsGet params "amount" (.num (.int 300)))
    return ActionSpace.create_scroll_down amount thought
  else if action_name = "type" then do
    let hasX ← paramsHas params "x"
    let hasY ← paramsHas params "y"
    let coords ←
      if hasX ∧ hasY then do
        let x ← pyInt (← paramsGet params "x" .null)
        let y ← pyInt (← paramsGet params "y" .null)
        Except.ok (some (x, y))
      else Except.ok none
    let text := pyStr (← paramsGet params "text" (.str ""))
    return ActionSpace.create_type text coords thought
  else if action_name = "wait" then do
    let seconds ← pyFloat (← paramsGet params "seconds" (.num (.float 1 0)))
    return ActionSpace.create_wait seconds thought
  else if action_name = "stop" then
    return ActionSpace.create_stop thought
  else
    Except.error ("未知动作类型: " ++ action_name)

/-! ### Trajectory recorder — `core/memory/trajectory.py`

`TrajectoryStep` and `Trajectory` with `add_step`, `mark_completed` and
`mark_failed`.  Wall-clock timestamps are passed in explicitly as natural
numbers; the filesystem side effects (`save`, screenshot writing, the
save-directory creation) act outside the recorded state and are omitted,
except that `add_step` records the screenshot filename it would write. -/

inductive TrajStatus where
  | running
  | completed
  | failed
deriving DecidableEq, Repr

structure TrajectoryStep where
  step : Nat
  timestamp : Nat
  action : ActionDict
  thought : Option String
  perception : Option Json
  success : Bool
  screenshot_path : Option String
  metadata : List (String × String)

structure Trajectory where
  task : String
  steps : List TrajectoryStep
  start_time : Nat
  end_time : Option Nat
  status : TrajStatus

/-- `Trajectory.__init__`: empty step list, `status="running"`, no end
time. -/
def Trajectory.init (task : String) (start_time : Nat) : Trajectory :=
  ⟨task, [], start_time, none, .running⟩

/-- Zero-padded step index for the screenshot filename (`step_{:03d}`). -/
def zfill3 (n : Nat) : String :=
  let s := toString n
  if s.length < 3 then String.mk (List.replicate (3 - s.length) '0') ++ s else s

/-- `Trajectory.add_step`: numbers the step as `len(steps) + 1` and appends
it; it performs no check of `status` whatsoever. -/
def Trajectory.add_step (t : Trajectory) (action : ActionDict)
    (thought : Option String) (perception : Option Json) (success : Bool)
    (screenshot : Bool) (metadata : Option (List (String × String)))
    (now : Nat) : Trajectory :=
  let step_num := t.steps.length + 1
  let screenshot_path :=
    if screenshot then some ("step_" ++ zfill3 step_num ++ ".png") else none
  { t with
      steps := t.steps ++
        [{ step := step_num
           timestamp := now
           action := action
           thought := thought
           perception := perception
           success := success
           screenshot_path := screenshot_path
           metadata := metadata.getD [] }] }

/-- Python dict assignment `m[k] = v` on the insertion-ordered metadata
map. -/
def dictSet (m : List (String × String)) (k v : String) :
    List (String × String) :=
  if m.any (fun p => p.1 == k) then
    m.map (fun p => if p.1 == k then (k, v) else p)
  else m ++ [(k, v)]

/-- Apply `f` to the last element of a list (`steps[-1]`), if any. -/
def updateLast (f : TrajectoryStep → TrajectoryStep) :
    List TrajectoryStep → List TrajectoryStep
  | [] => []
  | [x] => [f x]
  | x :: y :: xs => x :: updateLast f (y :: xs)

/-- `Trajectory.mark_completed`: unconditionally overwrites `status` and
`end_time` (then persists). -/
def Trajectory.mark_completed (t : Trajectory) (now : Nat) : Trajectory :=
  { t with status := .completed, end_time := some now }

/-- `Trajectory.mark_failed`: unconditionally overwrites `status` and
`end_time`, and writes the reason into the last step's metadata when any
step exists (then persists). -/
def Trajectory.mark_failed (t : Trajectory) (reason : String) (now : Nat) :
    Trajectory :=
  { t with
      status := .failed
      end_time := some now
      steps :=
        updateLast (fun s => { s with metadata := dictSet s.metadata "failure_reason" reason })
          t.steps }

/-- The three mutating operations a client can interleave on one
trajectory. -/
inductive TrajOp where
  | add (action : ActionDict) (thought : Option String)
      (perception : Option Json) (success : Bool) (screenshot : Bool)
      (metadata : Option (List (String × String))) (now : Nat)
  | complete (now : Nat)
  | fail (reason : String) (now : Nat)

def Trajectory.apply (t : Trajectory) : TrajOp → Trajectory
  | .add a th p su sc md now => t.add_step a th p su sc md now
  | .complete now => t.mark_completed now
  | .fail r now => t.mark_failed r now

/-- The steps starting at offset `k` are numbered `k+1, k+2, ...`. -/
def indexedFrom : Nat → List TrajectoryStep → Prop
  | _, [] => True
  | k, s :: rest => s.step = k + 1 ∧ indexedFrom (k + 1) rest

/-! ### Configuration — `core/config.py`

`Config` holds the two post-`__post_init__` credential profiles plus the
agent limits (environment-variable resolution has already happened in the
field values).  Python attribute access on a `Config` is modelled by
`Config.getattr` over exactly the dataclass fields and `@property`
accessors the class defines; `none` models `AttributeError`. -/

/-- Python string truthiness of an `Optional[str]` value. -/
def truthyOptStr : Option String → Bool
  | none => false
  | some s => s != ""

/-- Python `a or b` on `Optional[str]` values (empty strings are falsy). -/
def pyOrStr (a b : Option String) : Option String :=
  match a with
  | some s => if s = "" then b else some s
  | none => b

structure AliyunConfig where
  api_key : Option String
  base_url : Option String
  vision_model : String
  grounding_model : String
deriving DecidableEq, Repr

def AliyunConfig.is_configured (c : AliyunConfig) : Bool :=
  truthyOptStr c.api_key

structure ClaudeConfig where
  api_key : Option String
  base_url : Option String
  reasoning_model : String
deriving DecidableEq, Repr

def ClaudeConfig.is_configured (c : ClaudeConfig) : Bool :=
  truthyOptStr c.api_key

structure Config where
  aliyun : AliyunConfig
  claude : ClaudeConfig
  max_steps : Nat
  screenshot_interval : PyNum
deriving DecidableEq, Repr

/-- `Config._validate`, run by `__post_init__`: a `Config` instance only
exists if both profiles carry an API key. -/
def Config.validate (c : Config) : Except String Config :=
  let errors :=
    (if !c.aliyun.is_configured then
      ["阿里云API密钥未配置。请在.env文件中设置 ALIYUN_API_KEY"] else []) ++
    (if !c.claude.is_configured then
      ["Claude API密钥未配置。请在.env文件中设置 CLAUDE_API_KEY"] else [])
  if errors ≠ [] then .error (String.intercalate "\n" errors) else .ok c

/-- The value shapes an attribute read on `Config` can produce. -/
inductive PyAttr where
  | strA (s : Option String)
  | natA (n : Nat)
  | numA (q : PyNum)
  | aliyunA (a : AliyunConfig)
  | claudeA (c : ClaudeConfig)

/-- Attribute lookup on a `Config` instance: the four dataclass fields and
the seven `@property` accessors (`config.py` defines no other data
attributes; method attributes play no role in the modelled reads). -/
def Config.getattr (c : Config) (name : String) : Option PyAttr :=
  if name = "aliyun" then some (.aliyunA c.aliyun)
  else if name = "claude" then some (.claudeA c.claude)
  else if name = "max_steps" then some (.natA c.max_steps)
  else if name = "screenshot_interval" then some (.numA c.screenshot_interval)
  else if name = "perception_api_key" then some (.strA c.aliyun.api_key)
  else if name = "perception_base_url" then some (.strA c.aliyun.base_url)
  else if name = "vision_model" then some (.strA (some c.aliyun.vision_model))
  else if name = "grounding_model" then some (.strA (some c.aliyun.grounding_model))
  else if name = "reasoning_api_key" then some (.strA c.claude.api_key)
  else if name = "reasoning_base_url" then some (.strA c.claude.base_url)
  else if name = "reasoning_model" then some (.strA (some c.claude.reasoning_model))
  else none

/-- Read a string-valued attribute; a missing attribute raises
`AttributeError` (encoded as an error tagged with the exception class and
the attribute name). -/
def Config.readAttr (c : Config) (name : String) : Except String (Option String) :=
  match c.getattr name with
  | some (.strA s) => .ok s
  | some _ => .ok none
  | none => .error ("AttributeError: " ++ name)

/-! ### Model-call client construction — `core/llm/client.py`

`ChatClient.__init__` (also run by `VisionChatClient.__init__`): resolve
the key and base URL against the `OPENAI_*` environment fallbacks, seed
the history with the system prompt if given, and raise `ValueError` when
the resolved key is falsy.  Message contents are abstracted to their text
part. -/

structure ChatClient where
  api_key : String
  base_url : String
  history_messages : List (String × String)

def ChatClient.init (api_key base_url system_prompt env_openai_key env_openai_url :
    Option String) : Except String ChatClient :=
  let key := pyOrStr api_key env_openai_key
  let url := (pyOrStr base_url env_openai_url).getD "https://api.openai.com/v1"
  let history :=
    match system_prompt with
    | some sp => [("system", sp)]
    | none => []
  if !truthyOptStr key then
    .error "ValueError: API密钥未配置。请在.env文件中设置OPENAI_API_KEY，或在初始化时提供api_key参数。"
  else .ok ⟨key.getD "", url, history⟩

/-! ### Planner construction — `core/planning/planner.py` (claim C1 part)

`ReActPlanner.__init__` builds its `VisionChatClient` from
`self.config.api_key` and `self.config.base_url` — attributes `Config`
does not define, so the two reads are the first thing to happen. -/

/-- The planner system prompt (natural-language instruction text, elided;
its content is never inspected by the code). -/
def ReActPlanner.SYSTEM_PROMPT : String := "GUI自动化Agent规划器系统提示词"

structure ReActPlanner where
  planner_client : ChatClient

def ReActPlanner.init (cfg : Config) (env_openai_key env_openai_url : Option String) :
    Except String ReActPlanner := do
  let api_key ← cfg.readAttr "api_key"
  let base_url ← cfg.readAttr "base_url"
  let client ← ChatClient.init api_key base_url (some ReActPlanner.SYSTEM_PROMPT)
    env_openai_key env_openai_url
  return ⟨client⟩

/-! ### Perception construction — `core/perception/vision_model.py` -/

structure VisionPerception where
  vision_client : ChatClient
  grounding_client : ChatClient

def VisionPerception.init (cfg : Config) (env_openai_key env_openai_url : Option String) :
    Except String VisionPerception := do
  let k1 ← cfg.readAttr "perception_api_key"
  let u1 ← cfg.readAttr "perception_base_url"
  let vision_client ← ChatClient.init k1 u1 none env_openai_key env_openai_url
  let k2 ← cfg.readAttr "perception_api_key"
  let u2 ← cfg.readAttr "perception_base_url"
  let grounding_client ← ChatClient.init k2 u2 none env_openai_key env_openai_url
  return ⟨vision_client, grounding_client⟩

/-- `ActionExecutor.__init__`: mode dispatch; an unknown mode raises
`ValueError`.  (The concrete driver construction performs no I/O.) -/
def ActionExecutor.init (mode : String) : Except String Unit :=
  if mode = "browser" then .ok ()
  else if mode = "desktop" then .ok ()
  else .error ("ValueError: 不支持的执行模式: " ++ mode)

/-- `GUIReactAgent.__init__`: perception, then planner, then executor, in
source order. -/
def GUIReactAgent.init (cfg : Config) (mode : String)
    (env_openai_key env_openai_url : Option String) :
    Except String (VisionPerception × ReActPlanner) := do
  let perception ← VisionPerception.init cfg env_openai_key env_openai_url
  let planner ← ReActPlanner.init cfg env_openai_key env_openai_url
  let _ ← ActionExecutor.init mode
  return (perception, planner)

/-! ### Perception behavior — `VisionPerception.perceive`

The surrounding impurity (prompt construction, the stateless vision call)
is captured by passing in the call outcome: `Except.ok` carries the raw
model reply, `Except.error` carries `str(e)` of the exception the call
raised.  `perceive` itself is total: it either parses the reply with the
shared recovery subroutine (whose all-fail default is the
`raw_response` wrapper) or returns the degraded result from its
exception handler. -/

def VisionPerception.parse_json_response (response : String) : Json :=
  match parseJsonStages response with
  | some v => v
  | none => .obj [("raw_response", .str response)]

def VisionPerception.perceive (callResult : Except String String) : Json :=
  match callResult with
  | .ok response => VisionPerception.parse_json_response response
  | .error e =>
    .obj [("scene_description", .str "感知失败"),
          ("interactive_elements", .arr []),
          ("current_state", .str "未知"),
          ("is_task_complete", .bool false),
          ("error_detected", .str e),
          ("suggestions", .arr [.str "重试感知"])]

/-! ### Planner behavior — `ReActPlanner.plan_next_action`

Same convention: the conversational model call is passed in as its
outcome.  Everything inside the `try` block after the call — JSON
recovery and `from_llm_response` — is modelled directly; any raised error
reaches the `except` handler, which returns the `Wait(2.0)` fallback
carrying `"规划失败，等待重试: " + str(e)` as its thought. -/

def ReActPlanner.parse_json_response (response : String) : Json :=
  match parseJsonStages response with
  | some v => v
  | none =>
    .obj [("thought", .str "解析失败"), ("action", .str "wait"),
          ("parameters", .obj [("seconds", .num (.int 2))])]

def ReActPlanner.plan_next_action (callResult : Except String String) : Action :=
  match callResult with
  | .error e =>
    ActionSpace.create_wait (.float 2 0) (some ("规划失败，等待重试: " ++ e))
  | .ok response =>
    match ActionSpace.from_llm_response (ReActPlanner.parse_json_response response) with
    | .ok a => a
    | .error e =>
      ActionSpace.create_wait (.float 2 0) (some ("规划失败，等待重试: " ++ e))

/-! ### Retry decorator — `retry_openai_call` in `core/llm/client.py`

The wrapped function is the sequence of its per-invocation outcomes;
sleeping is recorded as the accumulated `Rat` duration.  The Python
`while retry_count < max_retries` loop is run on fuel
`max_retries - retry_count`, which is positive exactly when the loop
condition holds. -/

inductive RetryOutcome (α : Type) where
  | value (a : α)
  | raised (e : String)
  | fellThrough
deriving DecidableEq, Repr

structure RetryResult (α : Type) where
  outcome : RetryOutcome α
  attemptsMade : Nat
  totalSleep : Rat
deriving DecidableEq, Repr

def retryAux (attempts : Nat → Except String α) (max_retries : Nat)
    (base_delay : Rat) :
    (fuel retry_count made : Nat) → (slept : Rat) → RetryResult α
  | 0, _, made, slept => ⟨.fellThrough, made, slept⟩
  | fuel + 1, retry_count, made, slept =>
    match attempts (made + 1) with
    | .ok a => ⟨.value a, made + 1, slept⟩
    | .error e =>
      let rc2 := retry_count + 1
      if max_retries ≤ rc2 then ⟨.raised e, made + 1, slept⟩
      else
        retryAux attempts max_retries base_delay fuel rc2 (made + 1)
          (slept + base_delay * 2 ^ (rc2 - 1))

def retry_openai_call (max_retries : Nat) (base_delay : Rat)
    (attempts : Nat → Except String α) : RetryResult α :=
  retryAux attempts max_retries base_delay max_retries 0 0 0

/-- `base_delay` multiplier accumulated over `n` doubling sleeps:
`1 + 2 + ... + 2 ^ (n - 1)`. -/
def geomSum2 (n : Nat) : Rat :=
  ((List.range n).map (fun k => (2 : Rat) ^ k)).sum

/-- The same sum shifted to start at exponent `rc`, shaped like the retry
loop's recursion. -/
def pow2SumFrom (rc : Nat) : Nat → Rat
  | 0 => 0
  | n + 1 => (2 : Rat) ^ rc + pow2SumFrom (rc + 1) n

/-! ### The control loop — `GUIReactAgent.run` in `core/agent.py`

One step of `_execute_step` is summarized by its observable outcome:
perception reported completion (the step returns before recording),
an action was planned/executed/recorded (with the callback possibly
delivering a stop signal before the next loop check), or an exception
escaped the step.  The `while step < max_steps and is_running` loop runs
on fuel `max_steps - step`; exhausted fuel is exactly a false first
conjunct.  Cleanup effects and the terminal marking are recorded both in
the result state and as an ordered event list (`finally` runs before a
re-raised exception reaches the caller).  The async `KeyboardInterrupt`
handler is outside this embedding. -/

inductive StepOutcome where
  | perceiveComplete
  | acted (action : Action) (success : Bool) (perception : Json) (stopSignal : Bool)
  | exc (msg : String)

inductive LoopExit where
  | broke
  | condFail
  | raised (msg : String)
deriving DecidableEq, Repr

def agentLoop (outcomes : Nat → StepOutcome) :
    (fuel step : Nat) → (running : Bool) → Option Trajectory →
    Nat × LoopExit × Option Trajectory
  | 0, step, _, traj => (step, .condFail, traj)
  | fuel + 1, step, running, traj =>
    if running then
      let s := step + 1
      match outcomes s with
      | .perceiveComplete => (s, .broke, traj)
      | .exc m => (s, .raised m, traj)
      | .acted a success perception stopSignal =>
        let traj2 := traj.map fun t =>
          t.add_step a.to_dict a.thought (some perception) success true none s
        if a.action_type = .STOP then (s, .broke, traj2)
        else agentLoop outcomes fuel s (running && !stopSignal) traj2
    else (step, .condFail, traj)

inductive AgentEvent where
  | markFailed (reason : String)
  | markCompleted
  | closeExecutor
  | resetPlanner
  | clearSession
  | reraise (msg : String)
deriving DecidableEq, Repr

structure RunResult where
  finalStep : Nat
  exit : LoopExit
  traj : Option Trajectory
  is_running : Bool
  current_task : Option String
  executorClosed : Bool
  plannerReset : Bool
  raised : Option String
  events : List AgentEvent

/-- The post-loop reason written by `run` when `step >= max_steps`. -/
def maxStepsReason : String := "达到最大步数限制"

def GUIReactAgent.run (outcomes : Nat → StepOutcome) (max_steps : Nat)
    (save_trajectory : Bool) (task : String) (start_time : Nat) : RunResult :=
  let traj0 := if save_trajectory then some (Trajectory.init task start_time) else none
  let r := agentLoop outcomes max_steps 0 true traj0
  let finalStep := r.1
  let traj1 := r.2.2
  match r.2.1 with
  | .raised m =>
    { finalStep := finalStep
      exit := .raised m
      traj := traj1.map fun t => t.mark_failed m finalStep
      is_running := false
      current_task := none
      executorClosed := true
      plannerReset := true
      raised := some m
      events :=
        (if traj1.isSome then [.markFailed m] else []) ++
          [.closeExecutor, .resetPlanner, .clearSession, .reraise m] }
  | e =>
    { finalStep := finalStep
      exit := e
      traj :=
        if max_steps ≤ finalStep then
          traj1.map fun t => t.mark_failed maxStepsReason finalStep
        else traj1.map fun t => t.mark_completed finalStep
      is_running := false
      current_task := none
      executorClosed := true
      plannerReset := true
      raised := none
      events :=
        (if traj1.isSome then
          [if max_steps ≤ finalStep then .markFailed maxStepsReason
           else .markCompleted]
         else []) ++ [.closeExecutor, .resetPlanner, .clearSession] }

/-- The failure reason recorded on the last step, if any. -/
def Trajectory.lastFailureReason (t : Trajectory) : Option String :=
  match t.steps.getLast? with
  | some s => (s.metadata.find? (fun p => p.1 == "failure_reason")).map (·.2)
  | none => none

/-! ## Theorems -/

/-- Claim C1: for every `Config` instance, constructing a `ReActPlanner`
raises `AttributeError` (on the very first read, `config.api_key`), and so
does constructing a `GUIReactAgent` — whose constructor first builds a
`VisionPerception` (which succeeds whenever the aliyun key is configured,
as `Config._validate` guarantees for every instance) and then the
planner.  No planning ever happens. -/
theorem C1_planner_init_attribute_error (cfg : Config)
    (env_openai_key env_openai_url : Option String) :
    ReActPlanner.init cfg env_openai_key env_openai_url =
      .error "AttributeError: api_key" ∧
    (cfg.aliyun.is_configured = true →
      GUIReactAgent.init cfg "browser" env_openai_key env_openai_url =
        .error "AttributeError: api_key") := by
  constructor
  · rfl
  · intro h
    obtain ⟨⟨ak, au, avm, agm⟩, cl, ms, si⟩ := cfg
    match ak, h with
    | some s, h =>
      simp only [AliyunConfig.is_configured, truthyOptStr] at h
      simp [GUIReactAgent.init, VisionPerception.init, ReActPlanner.init,
        Config.readAttr, Config.getattr, ChatClient.init, pyOrStr,
        truthyOptStr, h, Bind.bind, Except.bind]
      split <;> simp_all [pure, Except.pure]

theorem C1_witness :
    (⟨⟨some "ak", some "au", "vm", "gm"⟩, ⟨some "ck", some "cu", "rm"⟩, 50,
        .float 1 0⟩ : Config).aliyun.is_configured = true ∧
    ReActPlanner.init
      ⟨⟨some "ak", some "au", "vm", "gm"⟩, ⟨some "ck", some "cu", "rm"⟩, 50,
        .float 1 0⟩ none none = .error "AttributeError: api_key" ∧
    GUIReactAgent.init
      ⟨⟨some "ak", some "au", "vm", "gm"⟩, ⟨some "ck", some "cu", "rm"⟩, 50,
        .float 1 0⟩ "browser" none none = .error "AttributeError: api_key" := by
  refine ⟨by decide, ?_, ?_⟩
  · exact (C1_planner_init_attribute_error _ none none).1
  · exact (C1_planner_init_attribute_error _ none none).2 (by decide)

/-- Claim C6 counterexample: the `Action` dataclass constructor performs no
validation, so `Action(ActionType.TYPE)` (no text) and
`Action(ActionType.CLICK_LEFT)` (no coordinate pair) both construct
successfully, producing values that violate the claimed variant
invariant instead of being rejected. -/
theorem C6_counterexample :
    (Action.construct ActionType.TYPE none none none none none []).text = none ∧
    Action.variantValid
      (Action.construct ActionType.TYPE none none none none none []) = false ∧
    (Action.construct ActionType.CLICK_LEFT none none none none none []).coordinates
      = none ∧
    Action.variantValid
      (Action.construct ActionType.CLICK_LEFT none none none none none []) = false :=
  ⟨rfl, rfl, rfl, rfl⟩

/-- Claim C6 (amended): construction is not validated — the dataclass
constructor accepts every field combination verbatim, so a `Type` action
without text and a click action without a coordinate pair are
constructible `Action` values (carrying `None` in the missing field)
rather than construction-time errors. -/
theorem C6_construction_unvalidated :
    (∀ (t : ActionType) (co : Option (Int × Int)) (tx : Option String)
        (sa : Option Int) (wt : Option PyNum) (th : Option String)
        (md : List (String × String)),
      Action.construct t co tx sa wt th md = ⟨t, co, tx, sa, wt, th, md⟩) ∧
    (∃ a : Action, a.action_type = ActionType.TYPE ∧ a.text = none) ∧
    (∃ a : Action, a.action_type = ActionType.CLICK_LEFT ∧ a.coordinates = none) :=
  ⟨fun _ _ _ _ _ _ _ => rfl,
    ⟨Action.construct ActionType.TYPE none none none none none [], rfl, rfl⟩,
    ⟨Action.construct ActionType.CLICK_LEFT none none none none none [], rfl, rfl⟩⟩

/-- Claim C8: serializing any `Action` with `to_dict` and reading it back
with `from_dict` reconstructs the action exactly, for every variant and
every field assignment. -/
theorem C8_action_round_trip (a : Action) :
    Action.from_dict (Action.to_dict a) = .ok a := by
  obtain ⟨t, co, tx, sa, wt, th, md⟩ := a
  cases t <;> rfl

/-- Claim C4 counterexample: after `mark_completed` at time 1, a
`mark_failed` at time 2 overwrites both the status and the end time — the
first terminal transition does not win. -/
theorem C4_counterexample :
    (((Trajectory.init "t" 0).mark_completed 1).mark_failed "boom" 2).status
      = TrajStatus.failed ∧
    (((Trajectory.init "t" 0).mark_completed 1).mark_failed "boom" 2).status
      ≠ TrajStatus.completed ∧
    (((Trajectory.init "t" 0).mark_completed 1).mark_failed "boom" 2).end_time
      = some 2 ∧
    (((Trajectory.init "t" 0).mark_completed 1).mark_failed "boom" 2).end_time
      ≠ some 1 :=
  ⟨rfl, by decide, rfl, by decide⟩

/-- Claim C4 (amended): a second terminal marker never reverts the status
to `running`, but it silently overwrites: the status and `end_time` of the
last call are the ones that persist, for either order of the two
markers. -/
theorem C4_last_terminal_transition_wins (t : Trajectory) (reason : String)
    (n m : Nat) :
    ((t.mark_completed n).mark_failed reason m).status = TrajStatus.failed ∧
    ((t.mark_completed n).mark_failed reason m).end_time = some m ∧
    ((t.mark_failed reason n).mark_completed m).status = TrajStatus.completed ∧
    ((t.mark_failed reason n).mark_completed m).end_time = some m ∧
    ((t.mark_completed n).mark_failed reason m).status ≠ TrajStatus.running ∧
    ((t.mark_failed reason n).mark_completed m).status ≠ TrajStatus.running := by
  refine ⟨rfl, rfl, rfl, rfl, ?_, ?_⟩ <;>
    simp [Trajectory.mark_failed, Trajectory.mark_completed]

theorem indexedFrom_append {l : List TrajectoryStep} {x : TrajectoryStep}
    {k : Nat} (hl : indexedFrom k l) (hx : x.step = k + l.length + 1) :
    indexedFrom k (l ++ [x]) := by
  induction l generalizing k with
  | nil => exact ⟨by simpa using hx, trivial⟩
  | cons s rest ih =>
    obtain ⟨h1, h2⟩ := hl
    exact ⟨h1, ih h2 (by simpa [Nat.add_comm, Nat.add_assoc, Nat.add_left_comm] using hx)⟩

theorem indexedFrom_updateLast {f : TrajectoryStep → TrajectoryStep}
    (hf : ∀ s, (f s).step = s.step) {l : List TrajectoryStep} {k : Nat}
    (hl : indexedFrom k l) : indexedFrom k (updateLast f l) := by
  induction l generalizing k with
  | nil => trivial
  | cons s rest ih =>
    cases rest with
    | nil => exact ⟨by rw [hf]; exact hl.1, trivial⟩
    | cons y ys => exact ⟨hl.1, ih hl.2⟩

theorem indexedFrom_get {l : List TrajectoryStep} {k : Nat}
    (h : indexedFrom k l) :
    ∀ i (hi : i < l.length), (l.get ⟨i, hi⟩).step = k + i + 1 := by
  induction l generalizing k with
  | nil => intro i hi; cases hi
  | cons s rest ih =>
    intro i hi
    cases i with
    | zero => simpa using h.1
    | succ j =>
      have := ih h.2 j (by simpa using Nat.lt_of_succ_lt_succ hi)
      simpa [Nat.add_comm, Nat.add_assoc, Nat.add_left_comm] using this

theorem apply_preserves_indexed {t : Trajectory} (op : TrajOp)
    (h : indexedFrom 0 t.steps) : indexedFrom 0 (t.apply op).steps := by
  cases op with
  | add a th p su sc md now =>
    exact indexedFrom_append h (by simp)
  | complete now => exact h
  | fail r now =>
    exact indexedFrom_updateLast
      (f := fun s => { s with metadata := dictSet s.metadata "failure_reason" r })
      (fun s => rfl) h

theorem foldl_preserves_indexed (ops : List TrajOp) :
    ∀ t : Trajectory, indexedFrom 0 t.steps →
      indexedFrom 0 ((ops.foldl Trajectory.apply t).steps) := by
  induction ops with
  | nil => exact fun t h => h
  | cons op rest ih =>
    exact fun t h => ih (t.apply op) (apply_preserves_indexed op h)

/-- Claim C3: the monotone-numbering half holds — after any interleaving
of `add_step`, `mark_completed` and `mark_failed` on a fresh trajectory,
the i-th recorded step carries number `i+1` — but the rejection half
fails: `add_step` checks nothing and appends unconditionally, also after a
terminal transition (second conjunct: the step list always grows by one,
whatever the current status). -/
theorem C3_step_numbering_and_unchecked_append (task : String) (st : Nat)
    (ops : List TrajOp) :
    (∀ i (hi : i < ((ops.foldl Trajectory.apply (Trajectory.init task st)).steps).length),
      (((ops.foldl Trajectory.apply (Trajectory.init task st)).steps).get ⟨i, hi⟩).step
        = i + 1) ∧
    (∀ (t : Trajectory) (a : ActionDict) (th : Option String) (p : Option Json)
        (su sc : Bool) (md : Option (List (String × String))) (now : Nat),
      (t.add_step a th p su sc md now).steps.length = t.steps.length + 1) := by
  constructor
  · intro i hi
    have h0 : indexedFrom 0 (Trajectory.init task st).steps := trivial
    simpa using indexedFrom_get (foldl_preserves_indexed ops _ h0) i hi
  · intro t a th p su sc md now
    simp [Trajectory.add_step]

/-- Claim C3 counterexample: on a trajectory already marked completed,
`add_step` still appends (the step list grows from empty to length one)
instead of rejecting the call. -/
theorem C3_counterexample :
    ((Trajectory.init "t" 0).mark_completed 1).status = TrajStatus.completed ∧
    (((Trajectory.init "t" 0).mark_completed 1).add_step
        (ActionSpace.create_stop none).to_dict none none true false none 2).steps.length
      = 1 :=
  ⟨rfl, rfl⟩

theorem C3_witness :
    (∃ hi : 0 < ((([TrajOp.add (ActionSpace.create_stop none).to_dict none none
        true false none 1]).foldl Trajectory.apply (Trajectory.init "t" 0)).steps).length,
      (((([TrajOp.add (ActionSpace.create_stop none).to_dict none none
        true false none 1]).foldl Trajectory.apply (Trajectory.init "t" 0)).steps).get
          ⟨0, hi⟩).step = 1) ∧
    ((((Trajectory.init "t" 0).mark_failed "r" 1)).add_step
        (ActionSpace.create_stop none).to_dict none none true false none 2).steps.length
      = (((Trajectory.init "t" 0).mark_failed "r" 1)).steps.length + 1 := by
  have h := C3_step_numbering_and_unchecked_append "t" 0
    [TrajOp.add (ActionSpace.create_stop none).to_dict none none true false none 1]
  exact ⟨⟨by decide, h.1 0 (by decide)⟩,
    h.2 ((Trajectory.init "t" 0).mark_failed "r" 1)
      (ActionSpace.create_stop none).to_dict none none true false none 2⟩

/-- Claim C5 counterexample: an unparseable model reply is a JSON-parsing
failure (all three recovery stages fail), yet `perceive` returns the
`raw_response` wrapper from `_parse_json_response`, not the degraded
result — no `error_detected`, no `suggestions`, no `is_task_complete`
key at all. -/
theorem C5_counterexample :
    parseJsonStages "not json at all" = none ∧
    VisionPerception.perceive (Except.ok "not json at all")
      = Json.obj [("raw_response", Json.str "not json at all")] ∧
    Json.getKey (VisionPerception.perceive (Except.ok "not json at all"))
      "error_detected" = none ∧
    Json.getKey (VisionPerception.perceive (Except.ok "not json at all"))
      "suggestions" = none ∧
    Json.getKey (VisionPerception.perceive (Except.ok "not json at all"))
      "is_task_complete" = none :=
  ⟨rfl, rfl, rfl, rfl, rfl⟩

/-- Claim C5 (amended): `perceive` is total (never raises into the
caller).  When the model call itself raises, it returns the degraded
result with `is_task_complete=false`, `error_detected` the error text and
`suggestions=["重试感知"]`.  When the call succeeds, the reply goes
through the shared JSON recovery, and if all three stages fail the result
is the `{"raw_response": ...}` wrapper — not the degraded result. -/
theorem C5_perceive_error_paths (e s : String) :
    VisionPerception.perceive (Except.error e)
      = Json.obj [("scene_description", Json.str "感知失败"),
          ("interactive_elements", Json.arr []),
          ("current_state", Json.str "未知"),
          ("is_task_complete", Json.bool false),
          ("error_detected", Json.str e),
          ("suggestions", Json.arr [Json.str "重试感知"])] ∧
    VisionPerception.perceive (Except.ok s)
      = VisionPerception.parse_json_response s ∧
    (parseJsonStages s = none →
      VisionPerception.perceive (Except.ok s)
        = Json.obj [("raw_response", Json.str s)]) := by
  refine ⟨rfl, rfl, fun h => ?_⟩
  simp [VisionPerception.perceive, VisionPerception.parse_json_response, h]

theorem C5_witness :
    VisionPerception.perceive (Except.error "connection refused")
      = Json.obj [("scene_description", Json.str "感知失败"),
          ("interactive_elements", Json.arr []),
          ("current_state", Json.str "未知"),
          ("is_task_complete", Json.bool false),
          ("error_detected", Json.str "connection refused"),
          ("suggestions", Json.arr [Json.str "重试感知"])] ∧
    VisionPerception.perceive (Except.ok "no braces here")
      = Json.obj [("raw_response", Json.str "no braces here")] := by
  have h := C5_perceive_error_paths "connection refused" "no braces here"
  exact ⟨h.1, h.2.2 (by rfl)⟩

/-- Claim C9: `plan_next_action` is total — it maps every call outcome to
an `Action`.  A raised model-call error yields the `Wait` fallback with
`wait_time = 2.0` and the error text in its thought; a reply whose parsed
decision `from_llm_response` rejects (in particular an unrecognized
action name, raised as `ValueError("未知动作类型: ...")`) is caught by the
same handler and yields the same fallback carrying that error text; and a
completely unparseable reply yields the parser's default `wait` decision,
which also becomes a `Wait` with `wait_time = 2.0`. -/
theorem C9_plan_next_action_fallback (e response : String) :
    ReActPlanner.plan_next_action (Except.error e)
      = ActionSpace.create_wait (.float 2 0)
          (some ("规划失败，等待重试: " ++ e)) ∧
    (ReActPlanner.plan_next_action (Except.error e)).wait_time
      = some (.float 2 0) ∧
    (∀ e2, ActionSpace.from_llm_response (ReActPlanner.parse_json_response response)
        = .error e2 →
      ReActPlanner.plan_next_action (Except.ok response)
        = ActionSpace.create_wait (.float 2 0)
            (some ("规划失败，等待重试: " ++ e2))) ∧
    (parseJsonStages response = none →
      ReActPlanner.plan_next_action (Except.ok response)
        = ActionSpace.create_wait (.float 2 0) (some "解析失败")) := by
  refine ⟨rfl, rfl, fun e2 h => ?_, fun h => ?_⟩
  · simp [ReActPlanner.plan_next_action, h]
  · simp only [ReActPlanner.plan_next_action, ReActPlanner.parse_json_response, h]
    rfl

theorem C9_witness :
    ActionSpace.from_llm_response
        (ReActPlanner.parse_json_response "\x7b\"action\": \"fly\"\x7d")
      = .error "未知动作类型: fly" ∧
    ReActPlanner.plan_next_action (Except.ok "\x7b\"action\": \"fly\"\x7d")
      = ActionSpace.create_wait (.float 2 0)
          (some ("规划失败，等待重试: " ++ "未知动作类型: fly")) ∧
    ReActPlanner.plan_next_action (Except.ok "garbage with no json")
      = ActionSpace.create_wait (.float 2 0) (some "解析失败") := by
  have h1 := C9_plan_next_action_fallback "x" "\x7b\"action\": \"fly\"\x7d"
  have h2 := C9_plan_next_action_fallback "x" "garbage with no json"
  exact ⟨rfl, h1.2.2.1 "未知动作类型: fly" (by rfl), h2.2.2.2 (by rfl)⟩

theorem pow2SumFrom_eq (n : Nat) :
    ∀ rc : Nat, pow2SumFrom rc n
      = ((List.range n).map (fun k => (2 : Rat) ^ (rc + k))).sum := by
  induction n with
  | zero => intro rc; simp [pow2SumFrom]
  | succ m ih =>
    intro rc
    rw [pow2SumFrom, ih (rc + 1), List.range_succ_eq_map]
    simp only [List.map_cons, List.map_map, List.sum_cons, Nat.add_zero]
    congr 1
    congr 1
    refine List.map_congr_left fun a _ => ?_
    simp only [Function.comp]
    congr 1
    omega

theorem pow2SumFrom_zero_eq_geomSum2 (n : Nat) : pow2SumFrom 0 n = geomSum2 n := by
  rw [pow2SumFrom_eq n 0, geomSum2]
  congr 1
  refine List.map_congr_left fun a _ => ?_
  rw [Nat.zero_add]

theorem retryAux_always_fails {α : Type} (errs : Nat → String) (mr : Nat)
    (base : Rat) :
    ∀ (fuel rc made : Nat) (slept : Rat), rc + fuel = mr → 1 ≤ fuel →
      retryAux (fun i => (Except.error (errs i) : Except String α)) mr base
          fuel rc made slept
        = ⟨.raised (errs (made + fuel)), made + fuel,
            slept + base * pow2SumFrom rc (fuel - 1)⟩ := by
  intro fuel
  induction fuel with
  | zero => intro rc made slept hsum hpos; omega
  | succ f ih =>
    intro rc made slept hsum hpos
    rw [retryAux]
    rcases Nat.eq_zero_or_pos f with hf | hf
    · subst hf
      have hle : mr ≤ rc + 1 := by omega
      simp [hle, pow2SumFrom]
    · have hnle : ¬ mr ≤ rc + 1 := by omega
      simp only [hnle, if_false]
      rw [ih (rc + 1) (made + 1) _ (by omega) hf]
      obtain ⟨f2, rfl⟩ : ∃ f2, f = f2 + 1 := ⟨f - 1, by omega⟩
      have hmade : made + 1 + (f2 + 1) = made + (f2 + 1 + 1) := by omega
      have h1 : rc + 1 - 1 = rc := by omega
      have h2 : f2 + 1 + 1 - 1 = f2 + 1 := by omega
      have h3 : f2 + 1 - 1 = f2 := by omega
      rw [hmade, h1, h2, h3]
      congr 1
      show slept + base * 2 ^ rc + base * pow2SumFrom (rc + 1) f2
          = slept + base * pow2SumFrom rc (f2 + 1)
      rw [pow2SumFrom]
      ring

/-- Claim C7: a wrapped call that fails on every invocation is attempted
exactly `max_retries` times, re-raises the exception of the last attempt,
and sleeps a total of `base_delay * (1 + 2 + ... + 2 ^ (max_retries - 2))`
(doubling backoff with no sleep after the final attempt). -/
theorem C7_retry_always_fails {α : Type} (max_retries : Nat) (base_delay : Rat)
    (errs : Nat → String) (h : 1 ≤ max_retries) :
    retry_openai_call max_retries base_delay
        (fun i => (Except.error (errs i) : Except String α))
      = ⟨.raised (errs max_retries), max_retries,
          base_delay * geomSum2 (max_retries - 1)⟩ := by
  rw [retry_openai_call,
    retryAux_always_fails errs max_retries base_delay max_retries 0 0 0
      (by omega) h,
    pow2SumFrom_zero_eq_geomSum2, Nat.zero_add, zero_add]

theorem C7_witness :
    (1 : Nat) ≤ 3 ∧
    retry_openai_call 3 1
        (fun i => (Except.error ("err" ++ toString i) : Except String Unit))
      = ⟨.raised ("err" ++ toString 3), 3, 1 * geomSum2 2⟩ :=
  ⟨by decide, C7_retry_always_fails 3 1 _ (by decide)⟩

theorem agentLoop_none (outcomes : Nat → StepOutcome) :
    ∀ (fuel step : Nat) (running : Bool),
      (agentLoop outcomes fuel step running none).2.2 = none := by
  intro fuel
  induction fuel with
  | zero => intro step running; rfl
  | succ f ih =>
    intro step running
    rw [agentLoop]
    cases running with
    | false => rfl
    | true =>
      simp only [if_true]
      cases outcomes (step + 1) with
      | perceiveComplete => rfl
      | exc m => rfl
      | acted a success perception stopSignal =>
        simp only [Option.map_none]
        split
        · rfl
        · exact ih (step + 1) _

theorem agentLoop_some (outcomes : Nat → StepOutcome) :
    ∀ (fuel step : Nat) (running : Bool) (t : Trajectory),
      ∃ t2, (agentLoop outcomes fuel step running (some t)).2.2 = some t2 := by
  intro fuel
  induction fuel with
  | zero => intro step running t; exact ⟨t, rfl⟩
  | succ f ih =>
    intro step running t
    rw [agentLoop]
    cases running with
    | false => exact ⟨t, rfl⟩
    | true =>
      simp only [if_true]
      cases outcomes (step + 1) with
      | perceiveComplete => exact ⟨t, rfl⟩
      | exc m => exact ⟨t, rfl⟩
      | acted a success perception stopSignal =>
        simp only [Option.map_some]
        split
        · exact ⟨_, rfl⟩
        · exact ih (step + 1) _ _

theorem find_map_dictSet {m : List (String × String)} {k v : String}
    (h : m.any (fun p => p.1 == k) = true) :
    (m.map (fun p => if p.1 == k then (k, v) else p)).find?
      (fun p => p.1 == k) = some (k, v) := by
  induction m with
  | nil => cases h
  | cons q rest ih =>
    cases hq : (q.1 == k) with
    | true =>
      rw [List.map_cons, if_pos hq, List.find?_cons_of_pos]
      simp
    | false =>
      have hrest : rest.any (fun p => p.1 == k) = true := by
        rw [List.any_cons, hq, Bool.false_or] at h
        exact h
      have hifq : (if q.1 == k then (k, v) else q) = q := by
        rw [hq]
        rfl
      rw [List.map_cons, hifq, List.find?_cons_of_neg]
      · exact ih hrest
      · simp [hq]

theorem find_append_dictSet {m : List (String × String)} {k v : String}
    (h : m.any (fun p => p.1 == k) = false) :
    (m ++ [(k, v)]).find? (fun p => p.1 == k) = some (k, v) := by
  induction m with
  | nil =>
    rw [List.nil_append, List.find?_cons_of_pos]
    simp
  | cons q rest ih =>
    rw [List.any_cons, Bool.or_eq_false_iff] at h
    rw [List.cons_append, List.find?_cons_of_neg]
    · exact ih h.2
    · simp [h.1]

theorem find_dictSet (m : List (String × String)) (k v : String) :
    (dictSet m k v).find? (fun p => p.1 == k) = some (k, v) := by
  rw [dictSet]
  by_cases h : m.any (fun p => p.1 == k)
  · rw [if_pos h]; exact find_map_dictSet h
  · rw [if_neg h]; exact find_append_dictSet (Bool.eq_false_iff.mpr h)

theorem updateLast_ne_nil (f : TrajectoryStep → TrajectoryStep) :
    ∀ (l : List TrajectoryStep), l ≠ [] → updateLast f l ≠ [] := by
  intro l
  cases l with
  | nil => exact fun h => absurd rfl h
  | cons x xs =>
    intro _
    cases xs with
    | nil => simp [updateLast]
    | cons y ys => simp [updateLast]

theorem updateLast_getLast? (f : TrajectoryStep → TrajectoryStep) :
    ∀ (l : List TrajectoryStep), l ≠ [] →
      (updateLast f l).getLast? = (l.getLast?).map f := by
  intro l
  induction l with
  | nil => intro h; cases h rfl
  | cons x xs ih =>
    intro _
    cases xs with
    | nil => rfl
    | cons y ys =>
      have hne : (y :: ys) ≠ ([] : List TrajectoryStep) := by simp
      have hu : updateLast f (x :: y :: ys) = x :: updateLast f (y :: ys) := rfl
      rw [hu, List.getLast?_cons, List.getLast?_cons_cons, ← ih hne]
      rcases Option.isSome_iff_exists.mp
        (List.getLast?_isSome.mpr (updateLast_ne_nil f (y :: ys) hne)) with ⟨s, hs⟩
      rw [hs, Option.getD_some]

theorem mark_failed_lastFailureReason (t : Trajectory) (r : String) (now : Nat)
    (h : t.steps ≠ []) :
    (t.mark_failed r now).lastFailureReason = some r := by
  obtain ⟨s, hs⟩ := Option.isSome_iff_exists.mp (List.getLast?_isSome.mpr h)
  unfold Trajectory.lastFailureReason Trajectory.mark_failed
  rw [updateLast_getLast? _ _ h, hs]
  simp [find_dictSet]

/-- Claim C2 counterexample: with `max_steps = 1` and recording enabled, a
run whose single step chooses `Stop` ends the loop by `break` (exit kind
`broke`, one recorded step) — yet the post-loop check `step >= max_steps`
still marks the trajectory failed with the max-steps reason, where the
claim requires `completed`. -/
theorem C2_counterexample :
    (GUIReactAgent.run
        (fun _ => StepOutcome.acted (ActionSpace.create_stop (some "done")) true
          (Json.obj []) false) 1 true "task" 0).exit = LoopExit.broke ∧
    ((GUIReactAgent.run
        (fun _ => StepOutcome.acted (ActionSpace.create_stop (some "done")) true
          (Json.obj []) false) 1 true "task" 0).traj.map Trajectory.status)
      = some TrajStatus.failed ∧
    ((GUIReactAgent.run
        (fun _ => StepOutcome.acted (ActionSpace.create_stop (some "done")) true
          (Json.obj []) false) 1 true "task" 0).traj.bind
        Trajectory.lastFailureReason) = some maxStepsReason ∧
    ((GUIReactAgent.run
        (fun _ => StepOutcome.acted (ActionSpace.create_stop (some "done")) true
          (Json.obj []) false) 1 true "task" 0).traj.map
        (fun t => t.steps.length)) = some 1 :=
  ⟨rfl, rfl, rfl, rfl⟩

/-- Claim C2 (amended): with recording enabled, when no exception escapes
the loop the trajectory is marked failed with reason "达到最大步数限制"
exactly when the final step counter reached `max_steps` — including runs
whose last step reported completion or chose `Stop` — and marked
completed exactly when the loop ended before that (early Stop,
perception-reported completion, or an external stop signal). -/
theorem C2_post_loop_status (outcomes : Nat → StepOutcome) (max_steps : Nat)
    (task : String) (st : Nat)
    (h : (GUIReactAgent.run outcomes max_steps true task st).raised = none) :
    ∃ t, (GUIReactAgent.run outcomes max_steps true task st).traj = some t ∧
      t.status = (if max_steps ≤ (GUIReactAgent.run outcomes max_steps true task st).finalStep
        then TrajStatus.failed else TrajStatus.completed) ∧
      t.end_time = some (GUIReactAgent.run outcomes max_steps true task st).finalStep ∧
      (max_steps ≤ (GUIReactAgent.run outcomes max_steps true task st).finalStep →
        t.steps ≠ [] → t.lastFailureReason = some maxStepsReason) := by
  obtain ⟨t1, ht1⟩ := agentLoop_some outcomes max_steps 0 true (Trajectory.init task st)
  rcases hL : agentLoop outcomes max_steps 0 true (some (Trajectory.init task st))
    with ⟨fs, ex, tr⟩
  rw [hL] at ht1
  replace ht1 : tr = some t1 := ht1
  cases ex with
  | raised m => simp [GUIReactAgent.run, hL] at h
  | broke =>
    by_cases hms : max_steps ≤ fs
    · refine ⟨t1.mark_failed maxStepsReason fs, ?_, ?_, ?_, ?_⟩
      · simp [GUIReactAgent.run, hL, hms, ht1]
      · simp [GUIReactAgent.run, hL, hms, Trajectory.mark_failed]
      · simp [GUIReactAgent.run, hL, Trajectory.mark_failed]
      · intro _ hsteps
        have hne : t1.steps ≠ [] := by
          intro hnil
          apply hsteps
          simp [Trajectory.mark_failed, hnil, updateLast]
        exact mark_failed_lastFailureReason t1 _ fs hne
    · refine ⟨t1.mark_completed fs, ?_, ?_, ?_, ?_⟩
      · simp [GUIReactAgent.run, hL, hms, ht1]
      · simp [GUIReactAgent.run, hL, hms, Trajectory.mark_completed]
      · simp [GUIReactAgent.run, hL, Trajectory.mark_completed]
      · intro hc
        simp [GUIReactAgent.run, hL] at hc
        exact absurd hc hms
  | condFail =>
    by_cases hms : max_steps ≤ fs
    · refine ⟨t1.mark_failed maxStepsReason fs, ?_, ?_, ?_, ?_⟩
      · simp [GUIReactAgent.run, hL, hms, ht1]
      · simp [GUIReactAgent.run, hL, hms, Trajectory.mark_failed]
      · simp [GUIReactAgent.run, hL, Trajectory.mark_failed]
      · intro _ hsteps
        have hne : t1.steps ≠ [] := by
          intro hnil
          apply hsteps
          simp [Trajectory.mark_failed, hnil, updateLast]
        exact mark_failed_lastFailureReason t1 _ fs hne
    · refine ⟨t1.mark_completed fs, ?_, ?_, ?_, ?_⟩
      · simp [GUIReactAgent.run, hL, hms, ht1]
      · simp [GUIReactAgent.run, hL, hms, Trajectory.mark_completed]
      · simp [GUIReactAgent.run, hL, Trajectory.mark_completed]
      · intro hc
        simp [GUIReactAgent.run, hL] at hc
        exact absurd hc hms

theorem C2_witness :
    ∃ t, (GUIReactAgent.run (fun _ => StepOutcome.perceiveComplete) 3 true "t" 0).traj
        = some t ∧
      t.status = (if 3 ≤ (GUIReactAgent.run (fun _ => StepOutcome.perceiveComplete)
          3 true "t" 0).finalStep then TrajStatus.failed else TrajStatus.completed) ∧
      t.end_time = some (GUIReactAgent.run (fun _ => StepOutcome.perceiveComplete)
        3 true "t" 0).finalStep ∧
      (3 ≤ (GUIReactAgent.run (fun _ => StepOutcome.perceiveComplete) 3 true "t" 0).finalStep →
        t.steps ≠ [] → t.lastFailureReason = some maxStepsReason) :=
  C2_post_loop_status (fun _ => StepOutcome.perceiveComplete) 3 "t" 0 (by rfl)

/-- Claim C10: on every exit path of `run` — normal completion, stop
signal, step-limit exhaustion, or an exception escaping a step — cleanup
runs: the executor is closed, the planner context is reset, and
`is_running`/`current_task` are cleared; the event order always ends with
the three cleanup effects, and a re-raise happens only after them, after
the trajectory (when recording) was marked failed with the exception
message. -/
theorem C10_cleanup_on_every_exit (outcomes : Nat → StepOutcome)
    (max_steps : Nat) (task : String) (st : Nat) (save : Bool) :
    (GUIReactAgent.run outcomes max_steps save task st).executorClosed = true ∧
    (GUIReactAgent.run outcomes max_steps save task st).plannerReset = true ∧
    (GUIReactAgent.run outcomes max_steps save task st).is_running = false ∧
    (GUIReactAgent.run outcomes max_steps save task st).current_task = none ∧
    (∃ pre post,
      (GUIReactAgent.run outcomes max_steps save task st).events
        = pre ++ [AgentEvent.closeExecutor, AgentEvent.resetPlanner,
            AgentEvent.clearSession] ++ post ∧
      ((post = [] ∧ (GUIReactAgent.run outcomes max_steps save task st).raised = none) ∨
        (∃ m, post = [AgentEvent.reraise m] ∧
          (GUIReactAgent.run outcomes max_steps save task st).raised = some m ∧
          (save = true →
            pre = [AgentEvent.markFailed m] ∧
            ∃ t, (GUIReactAgent.run outcomes max_steps save task st).traj = some t ∧
              t.status = TrajStatus.failed ∧
              t.end_time = some (GUIReactAgent.run outcomes max_steps save task
                st).finalStep)))) := by
  cases save with
  | false =>
    rcases hL : agentLoop outcomes max_steps 0 true none with ⟨fs, ex, tr⟩
    have htr : tr = none := by
      have := agentLoop_none outcomes max_steps 0 true
      rw [hL] at this
      exact this
    subst htr
    cases ex with
    | raised m =>
      refine ⟨by simp [GUIReactAgent.run, hL], by simp [GUIReactAgent.run, hL],
        by simp [GUIReactAgent.run, hL], by simp [GUIReactAgent.run, hL],
        [], [AgentEvent.reraise m], by simp [GUIReactAgent.run, hL],
        Or.inr ⟨m, rfl, by simp [GUIReactAgent.run, hL], fun hfalse => nomatch hfalse⟩⟩
    | broke =>
      refine ⟨by simp [GUIReactAgent.run, hL], by simp [GUIReactAgent.run, hL],
        by simp [GUIReactAgent.run, hL], by simp [GUIReactAgent.run, hL],
        [], [], by simp [GUIReactAgent.run, hL],
        Or.inl ⟨rfl, by simp [GUIReactAgent.run, hL]⟩⟩
    | condFail =>
      refine ⟨by simp [GUIReactAgent.run, hL], by simp [GUIReactAgent.run, hL],
        by simp [GUIReactAgent.run, hL], by simp [GUIReactAgent.run, hL],
        [], [], by simp [GUIReactAgent.run, hL],
        Or.inl ⟨rfl, by simp [GUIReactAgent.run, hL]⟩⟩
  | true =>
    obtain ⟨t1, ht1⟩ := agentLoop_some outcomes max_steps 0 true (Trajectory.init task st)
    rcases hL : agentLoop outcomes max_steps 0 true (some (Trajectory.init task st))
      with ⟨fs, ex, tr⟩
    rw [hL] at ht1
    replace ht1 : tr = some t1 := ht1
    subst ht1
    cases ex with
    | raised m =>
      refine ⟨by simp [GUIReactAgent.run, hL], by simp [GUIReactAgent.run, hL],
        by simp [GUIReactAgent.run, hL], by simp [GUIReactAgent.run, hL],
        [AgentEvent.markFailed m], [AgentEvent.reraise m],
        by simp [GUIReactAgent.run, hL],
        Or.inr ⟨m, rfl, by simp [GUIReactAgent.run, hL], fun _ => ⟨rfl, ?_⟩⟩⟩
      refine ⟨t1.mark_failed m fs, by simp [GUIReactAgent.run, hL], ?_, ?_⟩
      · simp [Trajectory.mark_failed]
      · simp [GUIReactAgent.run, hL, Trajectory.mark_failed]
    | broke =>
      refine ⟨by simp [GUIReactAgent.run, hL], by simp [GUIReactAgent.run, hL],
        by simp [GUIReactAgent.run, hL], by simp [GUIReactAgent.run, hL],
        (if max_steps ≤ fs then [AgentEvent.markFailed maxStepsReason]
          else [AgentEvent.markCompleted]), [],
        ?_, Or.inl ⟨rfl, by simp [GUIReactAgent.run, hL]⟩⟩
      by_cases hms : max_steps ≤ fs <;>
        simp [GUIReactAgent.run, hL, hms]
    | condFail =>
      refine ⟨by simp [GUIReactAgent.run, hL], by simp [GUIReactAgent.run, hL],
        by simp [GUIReactAgent.run, hL], by simp [GUIReactAgent.run, hL],
        (if max_steps ≤ fs then [AgentEvent.markFailed maxStepsReason]
          else [AgentEvent.markCompleted]), [],
        ?_, Or.inl ⟨rfl, by simp [GUIReactAgent.run, hL]⟩⟩
      by_cases hms : max_steps ≤ fs <;>
        simp [GUIReactAgent.run, hL, hms]

theorem C10_witness :
    (GUIReactAgent.run (fun _ => StepOutcome.exc "boom") 2 true "t" 0).executorClosed
      = true ∧
    (GUIReactAgent.run (fun _ => StepOutcome.exc "boom") 2 true "t" 0).is_running
      = false ∧
    (∃ pre post,
      (GUIReactAgent.run (fun _ => StepOutcome.exc "boom") 2 true "t" 0).events
        = pre ++ [AgentEvent.closeExecutor, AgentEvent.resetPlanner,
            AgentEvent.clearSession] ++ post ∧
      ((post = [] ∧
          (GUIReactAgent.run (fun _ => StepOutcome.exc "boom") 2 true "t" 0).raised
            = none) ∨
        (∃ m, post = [AgentEvent.reraise m] ∧
          (GUIReactAgent.run (fun _ => StepOutcome.exc "boom") 2 true "t" 0).raised
            = some m ∧
          (true = true →
            pre = [AgentEvent.markFailed m] ∧
            ∃ t, (GUIReactAgent.run (fun _ => StepOutcome.exc "boom") 2 true "t" 0).traj
                = some t ∧
              t.status = TrajStatus.failed ∧
              t.end_time = some (GUIReactAgent.run (fun _ => StepOutcome.exc "boom")
                2 true "t" 0).finalStep)))) :=
  ⟨(C10_cleanup_on_every_exit (fun _ => StepOutcome.exc "boom") 2 "t" 0 true).1,
    (C10_cleanup_on_every_exit (fun _ => StepOutcome.exc "boom") 2 "t" 0 true).2.2.1,
    (C10_cleanup_on_every_exit (fun _ => StepOutcome.exc "boom") 2 "t" 0 true).2.2.2.2⟩

end GUIAgent
